import Mathlib

/-!
Verification of the mxx profile-lifecycle orchestrator against its
natural-language specification.  The Python sources are shallowly embedded:
pure fragments become Lean functions on the same data, effectful calls
(process launches, gate predicates, liveness probes) are parametrized by
their outcomes, and each runner operation additionally returns the ordered
list of observable events it performed.
-/

deriving instance DecidableEq for Except

namespace Mxx

/-! ## Completion ledger (`mxxp_check_completion/manager.py`) -/

/-- A day's completion record: insertion-ordered mapping from profile name to
outcome (`true` = succeeded, `false` = failed); a name that is absent was
never attempted that day.  Mirrors the JSON object handled by
`CompletionManager.load_completions`. -/
abbrev Completions := List (String × Bool)

/-- Python dict assignment `completions[profile_name] = success`: overwrite in
place when the key is present, otherwise append at the end. -/
def dictSet : Completions → String → Bool → Completions
  | [], k, v => [(k, v)]
  | (k0, v0) :: rest, k, v =>
    if k0 = k then (k, v) :: rest else (k0, v0) :: dictSet rest k v

/-- Python `completions.get(profile_name)`. -/
def dictGet : Completions → String → Option Bool
  | [], _ => none
  | (k0, v0) :: rest, k => if k0 = k then some v0 else dictGet rest k

/-- `CompletionManager.save_completion`: read-modify-write of the day's
record (the file write is assumed to succeed). -/
def save_completion (c : Completions) (name : String) (success : Bool) :
    Completions :=
  dictSet c name success

/-- `CompletionManager.is_completed`: absent → `False`; any recorded entry
counts when `include_failed`; otherwise only `status is True` counts. -/
def is_completed (c : Completions) (name : String) (include_failed : Bool) :
    Bool :=
  match dictGet c name with
  | none => false
  | some status => if include_failed then true else status

/-- The loop of `CompletionManager.get_incomplete_profiles`: walk
`all_profiles` in order, skip anything already completed per `is_completed`,
and split the rest into the `never_run` and `failed` accumulators. -/
def incompleteSplit (c : Completions) (include_failed : Bool) :
    List String → List String × List String
  | [] => ([], [])
  | p :: rest =>
    let s := incompleteSplit c include_failed rest
    if is_completed c p include_failed then s
    else
      match dictGet c p with
      | some false => (s.1, p :: s.2)
      | _ => (p :: s.1, s.2)

/-- `CompletionManager.get_incomplete_profiles`: never-run profiles first,
previously failed profiles last. -/
def get_incomplete_profiles (c : Completions) (all_profiles : List String)
    (include_failed : Bool) : List String :=
  let s := incompleteSplit c include_failed all_profiles
  s.1 ++ s.2

/-- The day's Notify List: profile names whose early process exit is to be
reinterpreted as success. -/
abbrev NotifyList := List String

/-- Modelled from the spec: `CompletionManager.add_to_notify_list`, the
notify-list append invoked by `register_notify_command` (`commands.py`); the
manager-side notify-list storage is absent from the `src/` snapshot of
`manager.py`.  The spec: the per-day list is "appended to via an explicit
opt-in command". -/
def add_to_notify_list (notify : NotifyList) (name : String) : NotifyList :=
  notify ++ [name]

/-- Modelled from the spec: the notify-aware completion recording that runs
when the orchestrator's `notifyFailure` re-fires the post-start hook (the
notify-list consultation is absent from the `src/` snapshot of the
check-completion plugin).  The spec: "when the Orchestrator's `notifyFailure`
fires for a profile present in the day's Notify List, the Ledger must record
it as `success=true` despite `ctx.failed==true`"; otherwise the outcome is
recorded as `success = not failed`. -/
def record_outcome (notify : NotifyList) (c : Completions) (name : String)
    (failed : Bool) : Completions :=
  if notify.contains name then save_completion c name true
  else save_completion c name (!failed)

/-! ## Hook bus (`mxx/plugin_system/loader.py`) -/

/-- Net outcome of one registered plugin's gate predicate as observed inside
`can_run_profile` / `can_kill_profile`: either the boolean the predicate
returned, or the exception that escaped `_call_with_inspection`. -/
abbrev GateCall := Except Unit Bool

/-- `PluginLoader.can_run_profile`, instrumented with the number of plugin
predicates invoked: the registered plugins are consulted in registration
order (list order); a raised exception is logged and skipped; the first
returned `False` short-circuits with answer `False`; the default is
`True`. -/
def can_run_profile : List GateCall → Bool × Nat
  | [] => (true, 0)
  | .ok b :: rest =>
    if b then
      let s := can_run_profile rest
      (s.1, s.2 + 1)
    else (false, 1)
  | .error _ :: rest =>
    let s := can_run_profile rest
    (s.1, s.2 + 1)

/-- `PluginLoader.can_kill_profile`: the same traversal as
`can_run_profile`, over the `can_kill_profile` predicates. -/
def can_kill_profile : List GateCall → Bool × Nat
  | [] => (true, 0)
  | .ok b :: rest =>
    if b then
      let s := can_kill_profile rest
      (s.1, s.2 + 1)
    else (false, 1)
  | .error _ :: rest =>
    let s := can_kill_profile rest
    (s.1, s.2 + 1)

/-- How `_call_with_inspection` invokes a hook method: with the
signature-filtered keyword arguments, or (fallback) with all of them,
unfiltered. -/
inductive CallKind
  | filtered
  | full
deriving DecidableEq

/-- A plugin hook method as seen by `PluginLoader._call_with_inspection`:
whether `inspect.signature` succeeds on it, and the outcome (normal return or
raised exception) of each way of invoking it. -/
structure HookMethod where
  sigOk : Bool
  filteredCall : Except Unit Unit
  fullCall : Except Unit Unit
deriving DecidableEq

/-- `PluginLoader._call_with_inspection`: try signature inspection followed
by the filtered invocation; on any exception — including one raised by the
method itself — fall back to invoking the method again with all keyword
arguments.  Returns the invocations performed and the overall outcome. -/
def call_with_inspection (m : HookMethod) : List CallKind × Except Unit Unit :=
  if m.sigOk then
    match m.filteredCall with
    | .ok v => ([CallKind.filtered], .ok v)
    | .error _ => ([CallKind.filtered, CallKind.full], m.fullCall)
  else ([CallKind.full], m.fullCall)

/-- One registered plugin as seen by `PluginLoader.emit` for a given event:
the `hook_{event}` method, if the plugin defines one. -/
abbrev EmitPlugin := Option HookMethod

/-- `PluginLoader.emit`: dispatch the event to every plugin in registration
order; every per-plugin call sits inside try/except, so an exception escaping
`_call_with_inspection` is logged and never stops dispatch.  Returns each
plugin's invocation list. -/
def emit : List EmitPlugin → List (List CallKind)
  | [] => []
  | none :: rest => [] :: emit rest
  | some m :: rest => (call_with_inspection m).1 :: emit rest

/-! ## Profile data model (`mxx/models`) -/

/-- `LDModel` (`mxx/models/ld.py`): emulator instance selected by numeric
index or by name. -/
structure LDModel where
  index : Option Int
  name : Option String
deriving DecidableEq

/-- `MaaModel` (`mxx/models/maa.py`): automation install path, executable
name, optional config directory. -/
structure MaaModel where
  path : String
  app : String
  configDir : Option String
deriving DecidableEq

/-- `MxxProfile` (`mxx/models/profile.py`). -/
structure MxxProfile where
  ld : Option LDModel
  maa : Option MaaModel
  lifetime : Option Int
  waittime : Option Int
deriving DecidableEq

/-! ## Profile runner (`mxx/core/runner.py`) and `run up` (`mxx/cli/run.py`) -/

/-- Observable actions of `ProfileRunner`, in order of occurrence. -/
inductive REvent
  | preProfileStartHook
  | emitPreLdStart
  | ldLaunch
  | emitPreWaitTime
  | sleep (seconds : Int)
  | emitPreMaaLaunch
  | maaLaunch
  | postProfileStartHook
  | preProfileKillHook
  | emitPreMaaKill
  | maaKill
  | emitPreLdKill
  | ldKill
  | postProfileKillHook
deriving DecidableEq

/-- Outcomes of the external effects `ProfileRunner` triggers: the answers of
the two plugin gate queries and whether each OS-level call raises. -/
structure RunnerEnv where
  canRun : Bool
  canKill : Bool
  validation : Except Unit Unit
  ldLaunch : Except Unit Unit
  maaLaunch : Except Unit Unit
  maaKill : Except Unit Unit
  ldKill : Except Unit Unit
deriving DecidableEq

/-- The tail of `ProfileRunner.start_profile` after the LD section: the wait
between the launches when both specs are present, the MAA launch (failure is
caught by the method's catch-all, yielding `False`), and the post-start
hook. -/
def start_profile_after_ld (env : RunnerEnv) (profile : MxxProfile)
    (wait_time : Int) (evs : List REvent) : List REvent × Bool :=
  let evs1 :=
    if profile.ld.isSome && profile.maa.isSome then
      evs ++ [REvent.emitPreWaitTime, REvent.sleep wait_time]
    else evs
  match profile.maa with
  | none => (evs1 ++ [REvent.postProfileStartHook], true)
  | some _ =>
    let evs2 := evs1 ++ [REvent.emitPreMaaLaunch, REvent.maaLaunch]
    match env.maaLaunch with
    | .error _ => (evs2, false)
    | .ok _ => (evs2 ++ [REvent.postProfileStartHook], true)

/-- `ProfileRunner.start_profile`: optional validation, gate query, pre-start
hook, LD launch (`_start_ld` re-raises its exception), then the tail above.
The whole body sits in a try/except, so any exception becomes a `False`
return — nothing propagates to the caller — keeping the events already
emitted. -/
def start_profile (env : RunnerEnv) (profile : MxxProfile) (wait_time : Int)
    (validate : Bool) : List REvent × Bool :=
  match (if validate then env.validation else Except.ok ()) with
  | .error _ => ([], false)
  | .ok _ =>
    if !env.canRun then ([], false)
    else
      match profile.ld with
      | none =>
        start_profile_after_ld env profile wait_time
          [REvent.preProfileStartHook]
      | some _ =>
        let evs :=
          [REvent.preProfileStartHook, REvent.emitPreLdStart, REvent.ldLaunch]
        match env.ldLaunch with
        | .error _ => (evs, false)
        | .ok _ => start_profile_after_ld env profile wait_time evs

/-- `ProfileRunner._kill_ld`: the `ldpx console quit` call with its exception
caught and logged inside the helper — never re-raised. -/
def kill_ld_outcome (env : RunnerEnv) : Except Unit Unit :=
  match env.ldKill with
  | .ok _ => Except.ok ()
  | .error _ => Except.ok ()

/-- The tail of `ProfileRunner.kill_profile` after the MAA section: the LD
kill (best-effort inside `_kill_ld`) and the post-kill hook. -/
def kill_profile_after_maa (env : RunnerEnv) (profile : MxxProfile)
    (evs : List REvent) : List REvent × Bool :=
  match profile.ld with
  | some _ =>
    let evs1 := evs ++ [REvent.emitPreLdKill, REvent.ldKill]
    match kill_ld_outcome env with
    | .error _ => (evs1, false)
    | .ok _ => (evs1 ++ [REvent.postProfileKillHook], true)
  | none => (evs ++ [REvent.postProfileKillHook], true)

/-- `ProfileRunner.kill_profile`: gate query, pre-kill hook, MAA kill first
(`_kill_maa` does not catch, so `kill_processes_by_path` raising propagates
to the method's catch-all: logged, `False` returned, LD section skipped),
then the LD kill and post-kill hook. -/
def kill_profile (env : RunnerEnv) (profile : MxxProfile) :
    List REvent × Bool :=
  if !env.canKill then ([], false)
  else
    let evs0 := [REvent.preProfileKillHook]
    match profile.maa with
    | some _ =>
      let evs1 := evs0 ++ [REvent.emitPreMaaKill, REvent.maaKill]
      match env.maaKill with
      | .error _ => (evs1, false)
      | .ok _ => kill_profile_after_maa env profile evs1
    | none => kill_profile_after_maa env profile evs0

/-- The wait computation of `run up` (`run.py` line 54):
`waittime if waittime is not None else (profile.waittime or 15)` — Python
`or` treats an explicit `0` as falsy and replaces it with the default. -/
def ld_wait (waittime : Option Int) (profile : MxxProfile) : Int :=
  match waittime with
  | some w => w
  | none =>
    match profile.waittime with
    | none => 15
    | some w => if w = 0 then 15 else w

/-- Environment of one `run up` iteration: the runner environment, whether
the profile name resolves (`FileNotFoundError` otherwise), and what the
monitoring wait reports. -/
structure UpEnv where
  runner : RunnerEnv
  resolveOk : Bool
  monitorCompleted : Bool
deriving DecidableEq

/-- The body of `run up` for a single profile (`run.py` lines 38-93): resolve
and validate (exceptions exit 1), compute the wait, call `start_profile`
discarding its boolean result, then the lifetime/kill phase.  Returns the
runner events and the process exit code (0 = flow continues normally).  The
`--kill-all` branch delegates to `run down`, outside this model's single
profile. -/
def up_one (env : UpEnv) (profile : MxxProfile) (waittime : Option Int)
    (kill kill_all : Bool) : List REvent × Nat :=
  if !env.resolveOk then ([], 1)
  else
    match env.runner.validation with
    | .error _ => ([], 1)
    | .ok _ =>
      let s := start_profile env.runner profile (ld_wait waittime profile) false
      if kill || kill_all then
        match profile.lifetime with
        | some _ =>
          if !env.monitorCompleted then
            (s.1 ++ [REvent.postProfileStartHook], 1)
          else if kill_all then (s.1, 0)
          else
            let k := kill_profile env.runner profile
            (s.1 ++ k.1, 0)
        | none => (s.1, 0)
      else (s.1, 0)

/-! ## Liveness monitor (`mxx/utils/nofuss/sleep.py`) -/

/-- The countdown loop of `sleep_with_countdown` (lines 122-145): `remaining`
counts down one tick per second; on every tick at a multiple of 10 (when a
profile was given) the profile's liveness is probed — `check r = true` means
`_check_profile_running` reported alive at `remaining = r`.  A failed probe
increments the consecutive-failure counter, which resets to 0 on a live
probe; reaching `max_failures = 10` returns `False` (aborted); falling out of
the loop returns `True` (ran to expiry). -/
def countdown_go (hasProfile : Bool) (check : Nat → Bool) :
    Nat → Nat → Bool
  | 0, _ => true
  | r + 1, failure_count =>
    if hasProfile ∧ (r + 1) % 10 = 0 then
      if check (r + 1) then countdown_go hasProfile check r 0
      else if failure_count + 1 ≥ 10 then false
      else countdown_go hasProfile check r (failure_count + 1)
    else countdown_go hasProfile check r failure_count

/-- `sleep_with_countdown` (without the `KeyboardInterrupt` path): an
immediate `True` for a nonpositive duration, otherwise the countdown loop
starting with failure counter 0. -/
def sleep_with_countdown (seconds : Int) (hasProfile : Bool)
    (check : Nat → Bool) : Bool :=
  if seconds ≤ 0 then true
  else countdown_go hasProfile check seconds.toNat 0

/-! ## Theorems -/

theorem dictGet_dictSet_self (c : Completions) (k : String) (v : Bool) :
    dictGet (dictSet c k v) k = some v := by
  induction c with
  | nil => simp [dictSet, dictGet]
  | cons hd tl ih =>
    obtain ⟨k0, v0⟩ := hd
    by_cases h : k0 = k <;> simp [dictSet, dictGet, h, ih]

theorem incompleteSplit_eq (c : Completions) (inc : Bool)
    (all_profiles : List String) :
    incompleteSplit c inc all_profiles =
      (all_profiles.filter (fun p => decide (dictGet c p = none)),
       all_profiles.filter
         (fun p => !(is_completed c p inc) && decide (dictGet c p = some false))) := by
  induction all_profiles with
  | nil => rfl
  | cons p rest ih =>
    rcases h : dictGet c p with _ | b
    · simp [incompleteSplit, is_completed, h, ih, List.filter]
    · cases b
      · cases inc <;>
          simp [incompleteSplit, is_completed, h, ih, List.filter]
      · simp [incompleteSplit, is_completed, h, ih, List.filter]

/-- Claim C8: after `save_completion(name, true)` the query
`is_completed(name, include_failed := false)` returns `true`; after
`save_completion(name, false)`, `is_completed(name, false)` returns `false`
while `is_completed(name, true)` returns `true`. -/
theorem ledger_round_trip (c : Completions) (name : String) :
    is_completed (save_completion c name true) name false = true ∧
    is_completed (save_completion c name false) name false = false ∧
    is_completed (save_completion c name false) name true = true := by
  simp [is_completed, save_completion, dictGet_dictSet_self]

/-- Claim C9: `get_incomplete_profiles` skips names already completed per
`is_completed` and returns the never-attempted names (no record) first,
followed by the attempted-and-failed names, each group preserving the input
list's relative order (both groups are `filter`s of the input); on
`["a","b","c"]` with `"b"` failed and `"a"`,`"c"` never run it returns
`["a","c","b"]`. -/
theorem incomplete_profiles_ordering :
    (∀ (c : Completions) (all_profiles : List String) (include_failed : Bool),
      get_incomplete_profiles c all_profiles include_failed =
        all_profiles.filter (fun p => decide (dictGet c p = none)) ++
        all_profiles.filter
          (fun p => !(is_completed c p include_failed) &&
            decide (dictGet c p = some false))) ∧
    get_incomplete_profiles [("b", false)] ["a", "b", "c"] false =
      ["a", "c", "b"] := by
  refine ⟨fun c all_profiles inc => ?_, by decide⟩
  simp [get_incomplete_profiles, incompleteSplit_eq]

/-- Claim C1: a profile present in today's Notify List whose monitoring phase
aborts as failed (`failed = true`) is recorded in the day's ledger as
`success = true` — the notify-list trust override. -/
theorem notify_override_records_success (notify : NotifyList)
    (c : Completions) (name : String) (h : notify.contains name = true) :
    dictGet (record_outcome notify c name true) name = some true := by
  simp only [record_outcome, h, if_pos]
  exact dictGet_dictSet_self c name true

theorem notify_override_records_success_witness :
    ((add_to_notify_list [] "maa").contains "maa" = true) ∧
    dictGet (record_outcome (add_to_notify_list [] "maa") [] "maa" true)
      "maa" = some true :=
  ⟨by decide,
   notify_override_records_success (add_to_notify_list [] "maa") [] "maa"
     (by decide)⟩

theorem can_run_profile_veto (pre post : List GateCall)
    (hpre : ∀ r ∈ pre, r ≠ Except.ok false) :
    can_run_profile (pre ++ Except.ok false :: post) =
      (false, pre.length + 1) := by
  induction pre with
  | nil => simp [can_run_profile]
  | cons r rest ih =>
    have hr := hpre r (List.mem_cons_self r rest)
    have hrest : ∀ x ∈ rest, x ≠ Except.ok false :=
      fun x hx => hpre x (List.mem_cons_of_mem r hx)
    rcases r with e | b
    · simp [can_run_profile, ih hrest]
    · cases b
      · exact absurd rfl hr
      · simp [can_run_profile, ih hrest]

theorem can_run_profile_no_veto (ps : List GateCall)
    (hps : ∀ r ∈ ps, r ≠ Except.ok false) :
    can_run_profile ps = (true, ps.length) := by
  induction ps with
  | nil => rfl
  | cons r rest ih =>
    have hr := hps r (List.mem_cons_self r rest)
    have hrest : ∀ x ∈ rest, x ≠ Except.ok false :=
      fun x hx => hps x (List.mem_cons_of_mem r hx)
    rcases r with e | b
    · simp [can_run_profile, ih hrest]
    · cases b
      · exact absurd rfl hr
      · simp [can_run_profile, ih hrest]

theorem can_kill_profile_veto (pre post : List GateCall)
    (hpre : ∀ r ∈ pre, r ≠ Except.ok false) :
    can_kill_profile (pre ++ Except.ok false :: post) =
      (false, pre.length + 1) := by
  induction pre with
  | nil => simp [can_kill_profile]
  | cons r rest ih =>
    have hr := hpre r (List.mem_cons_self r rest)
    have hrest : ∀ x ∈ rest, x ≠ Except.ok false :=
      fun x hx => hpre x (List.mem_cons_of_mem r hx)
    rcases r with e | b
    · simp [can_kill_profile, ih hrest]
    · cases b
      · exact absurd rfl hr
      · simp [can_kill_profile, ih hrest]

theorem can_kill_profile_no_veto (ps : List GateCall)
    (hps : ∀ r ∈ ps, r ≠ Except.ok false) :
    can_kill_profile ps = (true, ps.length) := by
  induction ps with
  | nil => rfl
  | cons r rest ih =>
    have hr := hps r (List.mem_cons_self r rest)
    have hrest : ∀ x ∈ rest, x ≠ Except.ok false :=
      fun x hx => hps x (List.mem_cons_of_mem r hx)
    rcases r with e | b
    · simp [can_kill_profile, ih hrest]
    · cases b
      · exact absurd rfl hr
      · simp [can_kill_profile, ih hrest]

/-- Claim C5: both gate queries consult the extensions in registration order;
the first predicate returning `False` short-circuits — exactly the extensions
up to and including it are invoked (`pre.length + 1`, none after it) and the
answer is `False`; an extension whose predicate raises is skipped, not a
veto; with no extensions or no veto every extension is invoked and the
answer is `True`. -/
theorem gate_query_short_circuit (pre post ps : List GateCall)
    (hpre : ∀ r ∈ pre, r ≠ Except.ok false)
    (hps : ∀ r ∈ ps, r ≠ Except.ok false) :
    can_run_profile (pre ++ Except.ok false :: post) =
      (false, pre.length + 1) ∧
    can_run_profile ps = (true, ps.length) ∧
    can_kill_profile (pre ++ Except.ok false :: post) =
      (false, pre.length + 1) ∧
    can_kill_profile ps = (true, ps.length) :=
  ⟨can_run_profile_veto pre post hpre,
   can_run_profile_no_veto ps hps,
   can_kill_profile_veto pre post hpre,
   can_kill_profile_no_veto ps hps⟩

theorem gate_query_short_circuit_witness :
    can_run_profile
        [Except.ok true, Except.error (), Except.ok false, Except.ok true] =
      (false, 3) ∧
    can_run_profile [Except.ok true, Except.error ()] = (true, 2) ∧
    can_kill_profile
        [Except.ok true, Except.error (), Except.ok false, Except.ok true] =
      (false, 3) ∧
    can_kill_profile [Except.ok true, Except.error ()] = (true, 2) := by
  have h := gate_query_short_circuit [Except.ok true, Except.error ()]
    [Except.ok true] [Except.ok true, Except.error ()]
    (by decide) (by decide)
  simpa using h

theorem emit_append (ps qs : List EmitPlugin) :
    emit (ps ++ qs) = emit ps ++ emit qs := by
  induction ps with
  | nil => rfl
  | cons p rest ih => cases p <;> simp [emit, ih]

/-- Claim C10: when a plugin's hook method raises on its first (filtered)
invocation, `_call_with_inspection`'s fallback invokes the same method a
second time with all keyword arguments unfiltered — its side effects can
occur twice — and only then is the failure caught at `emit`'s per-plugin
boundary: `emit` still returns (no exception escapes) and the plugins after
the failing one are still dispatched. -/
theorem erroring_hook_invoked_twice (m : HookMethod)
    (ps qs : List EmitPlugin) (hsig : m.sigOk = true)
    (hfail : m.filteredCall = Except.error ()) :
    call_with_inspection m =
      ([CallKind.filtered, CallKind.full], m.fullCall) ∧
    emit (ps ++ some m :: qs) =
      emit ps ++ [CallKind.filtered, CallKind.full] :: emit qs := by
  have h1 : call_with_inspection m =
      ([CallKind.filtered, CallKind.full], m.fullCall) := by
    simp [call_with_inspection, hsig, hfail]
  refine ⟨h1, ?_⟩
  rw [emit_append]
  simp [emit, h1]

theorem erroring_hook_invoked_twice_witness :
    call_with_inspection ⟨true, Except.error (), Except.error ()⟩ =
      ([CallKind.filtered, CallKind.full], Except.error ()) ∧
    emit [none, some ⟨true, Except.error (), Except.error ()⟩,
          some ⟨true, Except.ok (), Except.ok ()⟩] =
      [[], [CallKind.filtered, CallKind.full], [CallKind.filtered]] := by
  have h := erroring_hook_invoked_twice
    ⟨true, Except.error (), Except.error ()⟩ [none]
    [some ⟨true, Except.ok (), Except.ok ()⟩] rfl rfl
  exact ⟨h.1, by decide⟩

/-- Claim C6: when the `can_run_profile` gate answers `False`,
`start_profile` fires no pre-start hook, performs no emulator or automation
launch, fires no post-start hook (it emits no event at all), and returns
`False` normally rather than raising. -/
theorem gate_veto_blocks_start (env : RunnerEnv) (profile : MxxProfile)
    (wait_time : Int) (validate : Bool) (hgate : env.canRun = false)
    (hval : env.validation = Except.ok ()) :
    start_profile env profile wait_time validate = ([], false) := by
  cases validate <;> simp [start_profile, hval, hgate]

theorem gate_veto_blocks_start_witness :
    start_profile
      ⟨false, true, Except.ok (), Except.ok (), Except.ok (), Except.ok (),
       Except.ok ()⟩
      ⟨some ⟨some 0, none⟩, some ⟨"C:/maa", "maa.exe", none⟩, some 600,
       some 10⟩
      15 true = ([], false) :=
  gate_veto_blocks_start _ _ 15 true rfl rfl

theorem kill_ld_outcome_ok (env : RunnerEnv) :
    kill_ld_outcome env = Except.ok () := by
  unfold kill_ld_outcome
  cases env.ldKill <;> rfl

/-- Claim C7 counterexample: with both specs present and the automation kill
raising, `kill_profile` stops right after the MAA step — the emulator stop is
never attempted — refuting "a failure while stopping one component does not
prevent attempting to stop the other". -/
theorem kill_not_best_effort_counterexample :
    kill_profile
        ⟨true, true, Except.ok (), Except.ok (), Except.ok (),
         Except.error (), Except.ok ()⟩
        ⟨some ⟨some 0, none⟩, some ⟨"C:/maa", "maa.exe", none⟩, none, none⟩ =
      ([REvent.preProfileKillHook, REvent.emitPreMaaKill, REvent.maaKill],
       false) ∧
    REvent.ldKill ∉
      (kill_profile
        ⟨true, true, Except.ok (), Except.ok (), Except.ok (),
         Except.error (), Except.ok ()⟩
        ⟨some ⟨some 0, none⟩, some ⟨"C:/maa", "maa.exe", none⟩, none,
         none⟩).1 := by
  decide

/-- Claim C7 amended: for a profile with both specs and the kill gate open,
`kill_profile` stops the automation first and then the emulator; a failure of
the emulator stop is caught inside `_kill_ld` and changes nothing (the
post-kill hook still fires, `True` is returned); but a failure of the
automation stop skips the emulator stop entirely — it is caught by
`kill_profile`'s catch-all and surfaces only as a logged `False` return,
never raised to the caller. -/
theorem kill_profile_order_and_failure (env : RunnerEnv)
    (profile : MxxProfile) (hk : env.canKill = true)
    (hld : profile.ld.isSome = true) (hmaa : profile.maa.isSome = true) :
    (env.maaKill = Except.ok () →
      kill_profile env profile =
        ([REvent.preProfileKillHook, REvent.emitPreMaaKill, REvent.maaKill,
          REvent.emitPreLdKill, REvent.ldKill, REvent.postProfileKillHook],
         true)) ∧
    (env.maaKill = Except.error () →
      kill_profile env profile =
        ([REvent.preProfileKillHook, REvent.emitPreMaaKill, REvent.maaKill],
         false)) := by
  obtain ⟨ldm, hldm⟩ := Option.isSome_iff_exists.mp hld
  obtain ⟨maam, hmaam⟩ := Option.isSome_iff_exists.mp hmaa
  constructor
  · intro h
    simp [kill_profile, hk, hmaam, h, kill_profile_after_maa, hldm,
      kill_ld_outcome_ok]
  · intro h
    simp [kill_profile, hk, hmaam, h]

theorem kill_profile_order_and_failure_witness :
    kill_profile
        ⟨true, true, Except.ok (), Except.ok (), Except.ok (), Except.ok (),
         Except.error ()⟩
        ⟨some ⟨some 0, none⟩, some ⟨"C:/maa", "maa.exe", none⟩, none, none⟩ =
      ([REvent.preProfileKillHook, REvent.emitPreMaaKill, REvent.maaKill,
        REvent.emitPreLdKill, REvent.ldKill, REvent.postProfileKillHook],
       true) ∧
    kill_profile
        ⟨true, true, Except.ok (), Except.ok (), Except.ok (),
         Except.error (), Except.ok ()⟩
        ⟨some ⟨some 0, none⟩, some ⟨"C:/maa", "maa.exe", none⟩, none, none⟩ =
      ([REvent.preProfileKillHook, REvent.emitPreMaaKill, REvent.maaKill],
       false) :=
  ⟨(kill_profile_order_and_failure
      ⟨true, true, Except.ok (), Except.ok (), Except.ok (), Except.ok (),
       Except.error ()⟩
      ⟨some ⟨some 0, none⟩, some ⟨"C:/maa", "maa.exe", none⟩, none, none⟩
      rfl rfl rfl).1 rfl,
   (kill_profile_order_and_failure
      ⟨true, true, Except.ok (), Except.ok (), Except.ok (),
       Except.error (), Except.ok ()⟩
      ⟨some ⟨some 0, none⟩, some ⟨"C:/maa", "maa.exe", none⟩, none, none⟩
      rfl rfl rfl).2 rfl⟩

/-- Claim C2 counterexample: the automation launch raising is not fatal —
`start_profile` catches it and returns `False`, `run up` discards that
result, and the command's per-profile flow finishes with exit code 0 (the
claim demands a non-zero exit on launch failure). -/
theorem launch_failure_exit_zero_counterexample :
    (up_one
        ⟨⟨true, true, Except.ok (), Except.ok (), Except.error (),
          Except.ok (), Except.ok ()⟩, true, true⟩
        ⟨none, some ⟨"C:/maa", "maa.exe", none⟩, none, none⟩
        none false false) =
      ([REvent.preProfileStartHook, REvent.emitPreMaaLaunch,
        REvent.maaLaunch], 0) := by
  decide

/-- Claim C2 amended: an OS-level launch failure aborts the remaining launch
steps inside `start_profile` (no later launch, no post-start hook) and makes
it return `False`, but `run up` ignores that result, so the command still
exits 0 — the same code as success and as a gate veto; only a resolution
failure or a `validate_profile` exception (raised before `start_profile`)
exits non-zero. -/
theorem up_exit_codes :
    (∀ (env : UpEnv) (profile : MxxProfile) (waittime : Option Int),
      env.resolveOk = true → env.runner.validation = Except.ok () →
      (up_one env profile waittime false false).2 = 0) ∧
    (∀ (env : UpEnv) (profile : MxxProfile) (waittime : Option Int)
        (kill kill_all : Bool),
      env.resolveOk = true → env.runner.validation = Except.error () →
      (up_one env profile waittime kill kill_all).2 = 1) ∧
    (∀ (env : UpEnv) (profile : MxxProfile) (waittime : Option Int)
        (kill kill_all : Bool),
      env.resolveOk = false →
      (up_one env profile waittime kill kill_all).2 = 1) ∧
    (∀ (env : RunnerEnv) (profile : MxxProfile) (w : Int),
      env.canRun = true → profile.ld.isSome = true →
      env.ldLaunch = Except.error () →
      start_profile env profile w false =
        ([REvent.preProfileStartHook, REvent.emitPreLdStart, REvent.ldLaunch],
         false)) ∧
    (∀ (env : RunnerEnv) (profile : MxxProfile) (w : Int),
      env.canRun = true → profile.ld = none → profile.maa.isSome = true →
      env.maaLaunch = Except.error () →
      start_profile env profile w false =
        ([REvent.preProfileStartHook, REvent.emitPreMaaLaunch,
          REvent.maaLaunch], false)) := by
  refine ⟨?_, ?_, ?_, ?_, ?_⟩
  · intro env profile waittime hres hval
    simp [up_one, hres, hval]
  · intro env profile waittime kill kill_all hres hval
    simp [up_one, hres, hval]
  · intro env profile waittime kill kill_all hres
    simp [up_one, hres]
  · intro env profile w hgate hld herr
    obtain ⟨ldm, hldm⟩ := Option.isSome_iff_exists.mp hld
    simp [start_profile, hgate, hldm, herr]
  · intro env profile w hgate hld hmaa herr
    obtain ⟨maam, hmaam⟩ := Option.isSome_iff_exists.mp hmaa
    simp [start_profile, hgate, hld, hmaam, herr, start_profile_after_ld]

theorem up_exit_codes_witness :
    (up_one
        ⟨⟨true, true, Except.ok (), Except.ok (), Except.error (),
          Except.ok (), Except.ok ()⟩, true, true⟩
        ⟨none, some ⟨"C:/maa", "maa.exe", none⟩, none, none⟩
        none false false).2 = 0 ∧
    (up_one
        ⟨⟨true, true, Except.error (), Except.ok (), Except.ok (),
          Except.ok (), Except.ok ()⟩, true, true⟩
        ⟨none, some ⟨"C:/maa", "maa.exe", none⟩, none, none⟩
        none false false).2 = 1 ∧
    (up_one
        ⟨⟨true, true, Except.ok (), Except.ok (), Except.ok (),
          Except.ok (), Except.ok ()⟩, false, true⟩
        ⟨none, some ⟨"C:/maa", "maa.exe", none⟩, none, none⟩
        none true false).2 = 1 ∧
    start_profile
        ⟨true, true, Except.ok (), Except.error (), Except.ok (),
         Except.ok (), Except.ok ()⟩
        ⟨some ⟨some 0, none⟩, some ⟨"C:/maa", "maa.exe", none⟩, none, none⟩
        15 false =
      ([REvent.preProfileStartHook, REvent.emitPreLdStart, REvent.ldLaunch],
       false) ∧
    start_profile
        ⟨true, true, Except.ok (), Except.ok (), Except.error (),
         Except.ok (), Except.ok ()⟩
        ⟨none, some ⟨"C:/maa", "maa.exe", none⟩, none, none⟩ 15 false =
      ([REvent.preProfileStartHook, REvent.emitPreMaaLaunch,
        REvent.maaLaunch], false) :=
  ⟨up_exit_codes.1 _ _ none rfl rfl,
   up_exit_codes.2.1 _ _ none false false rfl rfl,
   up_exit_codes.2.2.1 _ _ none true false rfl,
   up_exit_codes.2.2.2.1 _ _ 15 rfl rfl rfl,
   up_exit_codes.2.2.2.2 _ _ 15 rfl rfl rfl rfl⟩

/-- Claim C4 counterexample: with `waittime = 0` explicitly set on the
profile and no CLI override, the sleep between the emulator and automation
launches lasts 15 seconds, not 0: Python's `profile.waittime or 15` treats
the valid value 0 as unset. -/
theorem waittime_zero_counterexample :
    (⟨some ⟨some 0, none⟩, some ⟨"C:/maa", "maa.exe", none⟩, none, some 0⟩ :
        MxxProfile).waittime = some 0 ∧
    ld_wait none
      ⟨some ⟨some 0, none⟩, some ⟨"C:/maa", "maa.exe", none⟩, none,
       some 0⟩ = 15 ∧
    REvent.sleep 15 ∈
      (up_one
        ⟨⟨true, true, Except.ok (), Except.ok (), Except.ok (),
          Except.ok (), Except.ok ()⟩, true, true⟩
        ⟨some ⟨some 0, none⟩, some ⟨"C:/maa", "maa.exe", none⟩, none, some 0⟩
        none false false).1 ∧
    REvent.sleep 0 ∉
      (up_one
        ⟨⟨true, true, Except.ok (), Except.ok (), Except.ok (),
          Except.ok (), Except.ok ()⟩, true, true⟩
        ⟨some ⟨some 0, none⟩, some ⟨"C:/maa", "maa.exe", none⟩, none, some 0⟩
        none false false).1 := by
  decide

/-- Claim C4 amended: for a profile with both an emulator and an automation
spec (gate open, emulator launch succeeding), the sleep between the two
launches lasts `ld_wait`: exactly the CLI override when one is given,
otherwise `profile.waittime` when it is set and nonzero, otherwise — unset
or explicitly 0 — 15 seconds. -/
theorem wait_between_launches (env : UpEnv) (profile : MxxProfile)
    (waittime : Option Int) (hres : env.resolveOk = true)
    (hval : env.runner.validation = Except.ok ())
    (hgate : env.runner.canRun = true)
    (hld : profile.ld.isSome = true) (hmaa : profile.maa.isSome = true)
    (hlaunch : env.runner.ldLaunch = Except.ok ()) :
    REvent.sleep (ld_wait waittime profile) ∈
      (up_one env profile waittime false false).1 ∧
    (∀ w, waittime = some w → ld_wait waittime profile = w) ∧
    (∀ w, waittime = none → profile.waittime = some w → w ≠ 0 →
      ld_wait waittime profile = w) ∧
    (waittime = none → profile.waittime = none ∨ profile.waittime = some 0 →
      ld_wait waittime profile = 15) := by
  obtain ⟨ldm, hldm⟩ := Option.isSome_iff_exists.mp hld
  obtain ⟨maam, hmaam⟩ := Option.isSome_iff_exists.mp hmaa
  refine ⟨?_, ?_, ?_, ?_⟩
  · simp only [up_one, hres, Bool.not_true, Bool.false_eq_true, if_false,
      hval]
    cases hml : env.runner.maaLaunch <;>
      simp [start_profile, hgate, hldm, hlaunch, start_profile_after_ld,
        hmaam, hml]
  · intro w hw
    simp [ld_wait, hw]
  · intro w hw hpw hw0
    simp [ld_wait, hw, hpw, hw0]
  · intro hw hpw
    rcases hpw with hpw | hpw <;> simp [ld_wait, hw, hpw]

theorem wait_between_launches_witness :
    REvent.sleep 15 ∈
      (up_one
        ⟨⟨true, true, Except.ok (), Except.ok (), Except.ok (),
          Except.ok (), Except.ok ()⟩, true, true⟩
        ⟨some ⟨some 0, none⟩, some ⟨"C:/maa", "maa.exe", none⟩, none, some 0⟩
        none false false).1 ∧
    ld_wait none
      ⟨some ⟨some 0, none⟩, some ⟨"C:/maa", "maa.exe", none⟩, none,
       some 0⟩ = 15 := by
  have h := wait_between_launches
    ⟨⟨true, true, Except.ok (), Except.ok (), Except.ok (), Except.ok (),
      Except.ok ()⟩, true, true⟩
    ⟨some ⟨some 0, none⟩, some ⟨"C:/maa", "maa.exe", none⟩, none, some 0⟩
    none rfl rfl rfl rfl rfl rfl
  exact ⟨by simpa using h.1, h.2.2.2 rfl (Or.inr rfl)⟩

theorem countdown_go_all_failing (r : Nat) :
    ∀ failure_count, failure_count < 10 →
      (countdown_go true (fun _ => false) r failure_count = false ↔
        10 ≤ failure_count + r / 10) := by
  induction r with
  | zero =>
    intro fc hfc
    simp [countdown_go]
    omega
  | succ r ih =>
    intro fc hfc
    by_cases h : (r + 1) % 10 = 0
    · by_cases h2 : fc + 1 ≥ 10
      · rw [show countdown_go true (fun _ => false) (r + 1) fc = false from by
          simp [countdown_go, h, h2]]
        simp
        omega
      · rw [show countdown_go true (fun _ => false) (r + 1) fc =
            countdown_go true (fun _ => false) r (fc + 1) from by
          simp [countdown_go, h, h2]]
        rw [ih (fc + 1) (by omega)]
        omega
    · rw [show countdown_go true (fun _ => false) (r + 1) fc =
          countdown_go true (fun _ => false) r fc from by
        simp [countdown_go, h]]
      rw [ih fc hfc]
      omega

/-- Claim C3 counterexample: over a 30-second lifetime only three liveness
checks occur (at 30, 20 and 10 seconds remaining), so even with every check
reporting not-running the 10-failure threshold is never reached: the wait
runs to full expiry and returns `True` (completed), not `False`. -/
theorem countdown_30s_counterexample :
    sleep_with_countdown 30 true (fun _ => false) = true := by decide

/-- Claim C3 amended: with every liveness check reporting not-running, the
monitoring wait aborts early with `False` (at the 10th consecutive failed
check, before the countdown reaches 0) exactly when the lifetime admits ten
check ticks, i.e. is at least 100 seconds; any shorter lifetime — in
particular the claim's 30 seconds, which allows only 3 checks — runs to full
expiry and returns `True`. -/
theorem countdown_abort_threshold (seconds : Int) :
    sleep_with_countdown seconds true (fun _ => false) = false ↔
      100 ≤ seconds := by
  unfold sleep_with_countdown
  by_cases hs : seconds ≤ 0
  · rw [if_pos hs]
    simp
    omega
  · rw [if_neg hs]
    rw [countdown_go_all_failing seconds.toNat 0 (by omega)]
    omega

end Mxx
